import Mathlib

/-!
Verification development for the benchpress benchmarking harness.

The harness drives external quantum-circuit compilers over a corpus of
circuits and device topologies.  Its own code is glue: a QASM file loader
that records load latency (src/benchpress/qiskit_gym/utils/io.py), a suite
of device-transpile tests (src/benchpress/qiskit_gym/device_transpile/
test_summit.py) and a suite of abstract-transpile tests
(src/benchpress/bqskit_gym/abstract_transpile/test_qasmbench.py).

The embedding below follows the source files.  External collaborators
(the qiskit pass manager, the bqskit compile function, the validator, the
QASM parser) are parameters: the harness treats them as opaque callables.
Facts stated about standard-library container behaviour (a Python dict of
gate counts holds only the gate types that occur in the circuit; dict.get
with a default never raises; plain indexing raises KeyError on a missing
key) are embedded as association-list lookups.
-/

namespace Benchpress

/-- One gate operation: a gate-type name and the qubit operands it acts on. -/
structure Gate where
  name : String
  qubits : List Nat
deriving DecidableEq, Repr

/-- An in-memory circuit: a fixed qubit count and an ordered gate sequence.
Mirrors the essential attributes of a qiskit QuantumCircuit and of a bqskit
Circuit as the harness uses them. -/
structure Circuit where
  num_qubits : Nat
  gates : List Gate
deriving DecidableEq, Repr

/-- bqskit circuits expose the qubit count as num_qudits; for the qubit
circuits of this corpus it is the same quantity as num_qubits. -/
def Circuit.num_qudits (c : Circuit) : Nat :=
  c.num_qubits

/-- Target-device descriptor: qubit count, connectivity edges, and the
canonical two-qubit gate type name, as the harness reads them off a
qiskit backend or a BqskitFlexibleBackend. -/
structure Backend where
  num_qubits : Nat
  coupling : List (Nat × Nat)
  two_q_gate_type : String
deriving DecidableEq, Repr

/-- The benchmark record extra_info mapping: metric name to numeric value.
Newer writes are consed on the front; lookup finds the newest binding,
matching Python dict assignment semantics for the keys used here. -/
abbrev ExtraInfo := List (String × Nat)

/-- Association-list lookup used for both extra_info and gate-count dicts. -/
def lookupInfo (k : String) : List (String × Nat) → Option Nat
  | [] => none
  | (k2, v) :: rest => if k2 = k then some v else lookupInfo k rest

/-- Number of occurrences of gate type g in the gate sequence of c. -/
def gateCount (c : Circuit) (g : String) : Nat :=
  (c.gates.filter (fun gate => gate.name = g)).length

/-- The distinct gate-type names occurring in c, in first-occurrence order. -/
def gateNames (c : Circuit) : List String :=
  (c.gates.map Gate.name).dedup

/-- Embeds qiskit QuantumCircuit.count_ops: a dict keyed by exactly the gate
names occurring in the circuit, each mapped to its occurrence count.  Gate
types absent from the circuit are absent from the dict. -/
def count_ops (c : Circuit) : List (String × Nat) :=
  (gateNames c).map (fun n => (n, gateCount c n))

/-- Embeds bqskit Circuit.gate_counts: likewise a dict keyed by exactly the
gate types present in the circuit. -/
def gate_counts (c : Circuit) : List (String × Nat) :=
  count_ops c

/-- The gate-count expression of the qiskit device-transpile tests
(test_summit.py line 39 and siblings): result.count_ops().get(key, 0).
A missing key yields the default 0, never an error. -/
def qiskitGateCount2q (result : Circuit) (key : String) : Nat :=
  (lookupInfo key (count_ops result)).getD 0

/-- The gate-count expression of the bqskit abstract-transpile tests
(test_qasmbench.py line 60): result.gate_counts[TWO_Q_GATE].  Plain dict
indexing: none models the KeyError raised when the key is absent. -/
def bqskitGateCount2q (result : Circuit) (key : String) : Option Nat :=
  lookupInfo key (gate_counts result)

/-- One step of the qiskit depth computation with a filter function: a gate
satisfying the filter raises the level of each of its qubits to one past
the maximum among them; a gate failing the filter synchronises its qubit
levels to their maximum without raising it. -/
def depthStep (filterFn : Gate → Bool) (stack : List Nat) (g : Gate) : List Nat :=
  let bump : Nat := if filterFn g then 1 else 0
  let m : Nat := (g.qubits.map (fun q => stack.getD q 0 + bump)).foldl max 0
  stack.mapIdx (fun i v => if g.qubits.contains i then m else v)

/-- Embeds qiskit QuantumCircuit.depth(filter_function): fold the per-qubit
level update over the gate sequence and take the maximum final level. -/
def depthFiltered (c : Circuit) (filterFn : Gate → Bool) : Nat :=
  (c.gates.foldl (depthStep filterFn) (List.replicate c.num_qubits 0)).foldl max 0

/-- Embeds the bqskit multi_qudit_depth property read at test_qasmbench.py
line 61: circuit depth restricted to gates acting on more than one qudit. -/
def multi_qudit_depth (c : Circuit) : Nat :=
  depthFiltered c (fun g => 1 < g.qubits.length)

/-- Parse failures of QuantumCircuit.from_qasm_file: the file is missing or
its contents are malformed. -/
inductive ParseError
  | missingFile
  | malformed
deriving DecidableEq, Repr

/-- Embeds qiskit_qasm_loader of src/benchpress/qiskit_gym/utils/io.py.
The external parser from_qasm_file is a parameter; elapsed stands for the
perf_counter difference around the parse call.  The loader returns the
parse outcome together with the benchmark extra_info state: on success the
qasm_load_time metric is written; a parse error propagates before the
write, leaving extra_info untouched. -/
def qiskit_qasm_loader (from_qasm_file : String → Except ParseError Circuit)
    (qasm_file : String) (elapsed : Nat) (extra_info : ExtraInfo) :
    Except ParseError Circuit × ExtraInfo :=
  match from_qasm_file qasm_file with
  | .error e => (.error e, extra_info)
  | .ok circuit => (.ok circuit, ("qasm_load_time", elapsed) :: extra_info)

/-- Modelled from the spec: Configuration.options qiskit optimization_level
(benchpress/config.py is not part of the excerpt).  The configuration is
process-wide and read-only for the run; the spec fixes the QFT scenario at
optimization level 1. -/
def qiskitOptimizationLevel : Nat := 1

/-- Modelled from the spec: the theoretical minimum two-qubit gate count for
the 100-qubit QFT circuit family.  A 100-qubit QFT entangles all qubits, so
any correct compilation needs at least 99 two-qubit gates; the exact value
is irrelevant below, only its positivity matters. -/
def qftTwoQGateTheoreticalMin : Nat := 99

/-- Failure modes a test case can surface: a propagated parse error from the
loader, a KeyError from plain dict indexing, or an internal placeholder for
pipeline orders that never arise in the modelled tests (compile or assert
before a successful load). -/
inductive TestError
  | parseError (e : ParseError)
  | keyError
  | internalError
deriving DecidableEq, Repr

/-- Terminal and intermediate states of a single test case: unexecuted
pipelines are running; the assert produces passed or assertionFailed; a
raised exception produces errored. -/
inductive Status
  | running
  | passed
  | assertionFailed
  | errored (e : TestError)
deriving DecidableEq, Repr

/-- The environment a device-transpile test case threads: the loaded input
circuit, the compiled result (a separate value), the benchmark extra_info
mapping, and the case status. -/
structure TestEnv where
  circuit : Option Circuit
  result : Option Circuit
  extra_info : ExtraInfo
  status : Status
deriving DecidableEq, Repr

/-- Environment of an unexecuted test case. -/
def initialEnv : TestEnv :=
  ⟨none, none, [], .running⟩

/-- External collaborators and configuration a device-transpile test closes
over: the QASM parser, the corpus directory, the abstract load latency, the
preset pass manager run function (taking the optimization level and the
backend), the validator, and the module-level resolved backend. -/
structure TestParams where
  from_qasm_file : String → Except ParseError Circuit
  qasm_dir : String
  elapsed : Nat
  compileFn : Nat → Backend → Circuit → Circuit
  validator : Circuit → Backend → Bool
  backend : Backend

/-- The statements a device-transpile test body executes, in order: load the
circuit from a file, run the pass manager, write the gate_count_2q metric
(the dict key is per-test: the backend two-qubit gate type, except the
hardcoded literal in test_circSU2), write the depth_2q metric, and assert
the validator verdict. -/
inductive TestStep
  | loadCircuit (file : String)
  | compileStep
  | recordGateCount (key : String)
  | recordDepth
  | assertValidator
deriving DecidableEq, Repr

/-- Executes one statement of a device-transpile test body on the threaded
environment.  A non-running status skips the statement: a raised exception
aborts the rest of the case. -/
def execStep (P : TestParams) (env : TestEnv) (step : TestStep) : TestEnv :=
  match env.status with
  | .running =>
    match step with
    | .loadCircuit file =>
      match qiskit_qasm_loader P.from_qasm_file file P.elapsed env.extra_info with
      | (.error e, info) => { env with extra_info := info, status := .errored (.parseError e) }
      | (.ok c, info) => { env with circuit := some c, extra_info := info }
    | .compileStep =>
      match env.circuit with
      | none => { env with status := .errored .internalError }
      | some c =>
        { env with result := some (P.compileFn qiskitOptimizationLevel P.backend c) }
    | .recordGateCount key =>
      match env.result with
      | none => { env with status := .errored .internalError }
      | some r =>
        { env with extra_info := ("gate_count_2q", qiskitGateCount2q r key) :: env.extra_info }
    | .recordDepth =>
      match env.result with
      | none => { env with status := .errored .internalError }
      | some r =>
        { env with extra_info :=
            ("depth_2q", depthFiltered r (fun g => g.name = P.backend.two_q_gate_type))
              :: env.extra_info }
    | .assertValidator =>
      match env.result with
      | none => { env with status := .errored .internalError }
      | some r =>
        { env with status := if P.validator r P.backend then .passed else .assertionFailed }
  | _ => env

/-- Runs a test body: folds its statements over the environment. -/
def runSteps (P : TestParams) (steps : List TestStep) (env : TestEnv) : TestEnv :=
  steps.foldl (execStep P) env

/-- The statement list of test_QFT_100_transpile (test_summit.py lines
24 to 43): load qft_N100.qasm, compile, record gate_count_2q keyed by the
backend two-qubit gate type, record depth_2q, assert the validator. -/
def qftTranspileSteps (P : TestParams) : List TestStep :=
  [.loadCircuit (P.qasm_dir ++ "qft_N100.qasm"), .compileStep,
   .recordGateCount P.backend.two_q_gate_type, .recordDepth, .assertValidator]

/-- Embeds test_QFT_100_transpile of test_summit.py. -/
def test_QFT_100_transpile (P : TestParams) : TestEnv :=
  runSteps P (qftTranspileSteps P) initialEnv

/-- The statement list of test_circSU2_100_transpile (test_summit.py lines
63 to 77): compile, record gate_count_2q keyed by the hardcoded string
literal cz of line 73 (not the backend two-qubit gate type), record
depth_2q (lines 74 to 76, which does use the backend two-qubit gate type),
assert the validator. -/
def circSU2TranspileSteps : List TestStep :=
  [.compileStep, .recordGateCount "cz", .recordDepth, .assertValidator]

/-- Embeds test_circSU2_100_transpile of test_summit.py (lines 63 to 77).
The input circuit is built by the external EfficientSU2 constructor, so it
enters as a parameter. -/
def test_circSU2_100_transpile (P : TestParams) (circuit : Circuit) : TestEnv :=
  runSteps P circSU2TranspileSteps { initialEnv with circuit := some circuit }

/-- A topology specification handed to the flexible backend constructor:
connectivity edges plus the canonical two-qubit gate type of the family. -/
structure TopologySpec where
  edges : List (Nat × Nat)
  two_q_gate_type : String
deriving DecidableEq, Repr

/-- Modelled from the spec: BqskitFlexibleBackend of
benchpress/bqskit_gym/utils/bqskit_backend_utils.py is not part of the
excerpt.  Per spec section 4.2 the flexible backend is constructed per test
case from a required qubit count paired with a topology specification, and
the resulting descriptor exposes that qubit count, the connectivity, and
the canonical two-qubit gate identifier. -/
def BqskitFlexibleBackend (num_qubits : Nat) (topo : TopologySpec) : Backend :=
  ⟨num_qubits, topo.edges, topo.two_q_gate_type⟩

/-- Session state of the bqskit compiler handles: a counter allocating a
fresh handle identifier per construction. -/
structure CompilerSession where
  nextHandle : Nat
deriving DecidableEq, Repr

/-- Embeds the bqskit Compiler() constructor call: allocates a fresh handle. -/
def Compiler (s : CompilerSession) : Nat × CompilerSession :=
  (s.nextHandle, ⟨s.nextHandle + 1⟩)

/-- External collaborators and configuration of an abstract-transpile test:
the QASM parser, the abstract load latency, the bqskit compile function
(taking the circuit, the model backend, the optimization level and the
compiler handle), the validator, and the configured optimization level. -/
structure BqskitParams where
  from_qasm_file : String → Except ParseError Circuit
  elapsed : Nat
  compileBq : Circuit → Backend → Nat → Nat → Circuit
  validator : Circuit → Backend → Bool
  optimization_level : Nat

/-- The observable outcome of one abstract-transpile test case: the circuit
it loaded, the flexible backend it constructed, the compiler handle it
used, its extra_info mapping, and its status.  Fields are none when the
case aborted before producing them. -/
structure CaseRecord where
  loaded : Option Circuit
  backendUsed : Option Backend
  handle : Option Nat
  extra_info : ExtraInfo
  status : Status
deriving DecidableEq, Repr

/-- Embeds the body shared by test_QASMBench_small, test_QASMBench_medium
and test_QASMBench_large of test_qasmbench.py (the three bodies are
textually identical): load the circuit of the pair, construct a
BqskitFlexibleBackend from the loaded circuit num_qudits and the topology
of the pair, construct a fresh Compiler, compile, record gate_count_2q by
plain indexing into gate_counts (KeyError when absent), record depth_2q as
multi_qudit_depth, and assert the validator. -/
def runAbstractCase (P : BqskitParams) (circ_and_topo : String × TopologySpec)
    (s : CompilerSession) : CaseRecord × CompilerSession :=
  match qiskit_qasm_loader P.from_qasm_file circ_and_topo.1 P.elapsed [] with
  | (.error e, info) => (⟨none, none, none, info, .errored (.parseError e)⟩, s)
  | (.ok circuit, info) =>
    let B := BqskitFlexibleBackend circuit.num_qudits circ_and_topo.2
    let hc := Compiler s
    let result := P.compileBq circuit B P.optimization_level hc.1
    match bqskitGateCount2q result B.two_q_gate_type with
    | none =>
      (⟨some circuit, some B, some hc.1, info, .errored .keyError⟩, hc.2)
    | some gc =>
      (⟨some circuit, some B, some hc.1,
        ("depth_2q", multi_qudit_depth result) :: ("gate_count_2q", gc) :: info,
        if P.validator result B then .passed else .assertionFailed⟩, hc.2)

/-- Embeds test_QASMBench_small (test_qasmbench.py lines 44 to 62). -/
def test_QASMBench_small (P : BqskitParams) (circ_and_topo : String × TopologySpec)
    (s : CompilerSession) : CaseRecord × CompilerSession :=
  runAbstractCase P circ_and_topo s

/-- Embeds test_QASMBench_medium (test_qasmbench.py lines 68 to 86). -/
def test_QASMBench_medium (P : BqskitParams) (circ_and_topo : String × TopologySpec)
    (s : CompilerSession) : CaseRecord × CompilerSession :=
  runAbstractCase P circ_and_topo s

/-- Embeds test_QASMBench_large (test_qasmbench.py lines 92 to 110). -/
def test_QASMBench_large (P : BqskitParams) (circ_and_topo : String × TopologySpec)
    (s : CompilerSession) : CaseRecord × CompilerSession :=
  runAbstractCase P circ_and_topo s

/-- Runs one parametrized group: the test body is invoked once per
(circuit, topology) pair in declaration order, threading only the compiler
session counter between invocations. -/
def runSmallGroup (P : BqskitParams) (pairs : List (String × TopologySpec))
    (s : CompilerSession) : List CaseRecord × CompilerSession :=
  match pairs with
  | [] => ([], s)
  | p :: rest =>
    let first := test_QASMBench_small P p s
    let others := runSmallGroup P rest first.2
    (first.1 :: others.1, others.2)

/-- Process-wide configuration surface: the selected production backend. -/
structure Configuration where
  backend : Backend

/-- Counters observing how often each backend flavor is produced during a
run: module-level Configuration.backend() resolutions and per-case
BqskitFlexibleBackend constructions. -/
structure ResolutionLog where
  backendResolutions : Nat
deriving DecidableEq, Repr

/-- Embeds the call Configuration.backend(): returns the configured backend
and logs one resolution. -/
def Configuration.resolveBackend (cfg : Configuration) (log : ResolutionLog) :
    Backend × ResolutionLog :=
  (cfg.backend, ⟨log.backendResolutions + 1⟩)

/-- Embeds the module level of test_summit.py (line 17): BACKEND is resolved
from the global configuration once, at import, before any test runs. -/
def summitModuleInit (cfg : Configuration) (log : ResolutionLog) :
    Backend × ResolutionLog :=
  Configuration.resolveBackend cfg log

/-- Runs the device-transpile suite: resolve the backend once at module
import, then hand that same backend to every test case of the suite.  The
test bodies never call Configuration.backend() themselves. -/
def runDeviceSuite (cfg : Configuration) (tests : List (Backend → TestEnv))
    (log : ResolutionLog) : List TestEnv × ResolutionLog :=
  let B := summitModuleInit cfg log
  (tests.map (fun t => t B.1), B.2)

/-- The flexible backend an abstract-transpile case is expected to use:
none when the load of the pair fails, otherwise the descriptor built from
the loaded circuit num_qudits and the topology of the pair. -/
def expectedFlexible (P : BqskitParams) (p : String × TopologySpec) : Option Backend :=
  match P.from_qasm_file p.1 with
  | .ok c => some (BqskitFlexibleBackend c.num_qudits p.2)
  | .error _ => none

/-- Concrete backend fixture: two qubits, one edge, canonical gate ecr. -/
def summitBackend : Backend :=
  ⟨2, [(0, 1)], "ecr"⟩

/-- Concrete compiled-circuit fixture: seven ecr gates, no cz gate. -/
def ecrResult : Circuit :=
  ⟨2, List.replicate 7 ⟨"ecr", [0, 1]⟩⟩

/-- Concrete input-circuit fixture for the circSU2 test. -/
def su2Input : Circuit :=
  ⟨2, []⟩

/-- A parser that always fails with a missing-file error. -/
def failingLoader : String → Except ParseError Circuit :=
  fun _ => .error .missingFile

/-- Concrete parameter fixture for the circSU2 test: the compiler returns
the seven-ecr-gate circuit and the validator accepts. -/
def circSU2Params : TestParams :=
  ⟨failingLoader, "", 0, fun _ _ _ => ecrResult, fun _ _ => true, summitBackend⟩

/-- Concrete loaded-circuit fixture: one single-qubit h gate. -/
def hCircuit : Circuit :=
  ⟨2, [⟨"h", [0]⟩]⟩

/-- Concrete compiled-circuit fixture with no gates at all. -/
def emptyResult : Circuit :=
  ⟨2, []⟩

/-- Concrete parameter fixture for the QFT test: the load succeeds, the
compiler returns the empty circuit, the validator accepts. -/
def qftParams : TestParams :=
  ⟨fun _ => .ok hCircuit, "", 0, fun _ _ _ => emptyResult, fun _ _ => true, summitBackend⟩

/-- Concrete parameter fixture for the QFT test with a rejecting validator. -/
def qftParamsFail : TestParams :=
  ⟨fun _ => .ok hCircuit, "", 0, fun _ _ _ => emptyResult, fun _ _ => false, summitBackend⟩

/-- Concrete circuit fixture with one cx gate on the pair (0, 1). -/
def cxCircuit : Circuit :=
  ⟨2, [⟨"cx", [0, 1]⟩]⟩

/-- Concrete topology fixture: one-edge line with canonical gate cx. -/
def ringTopo : TopologySpec :=
  ⟨[(0, 1)], "cx"⟩

/-- Concrete parameter fixture for the abstract-transpile group: the load
yields the cx circuit, the compiler is the identity, the validator accepts. -/
def bqParams : BqskitParams :=
  ⟨fun _ => .ok cxCircuit, 0, fun c _ _ _ => c, fun _ _ => true, 1⟩

/-- A two-pair parametrized group over the same topology. -/
def twoPairs : List (String × TopologySpec) :=
  [("a.qasm", ringTopo), ("b.qasm", ringTopo)]

/-- Concrete parameter fixture for the abstract-transpile group with a
rejecting validator: the load yields the cx circuit, the compiler is the
identity (so the recorded gate count key is present). -/
def bqParamsFail : BqskitParams :=
  ⟨fun _ => .ok cxCircuit, 0, fun c _ _ _ => c, fun _ _ => false, 1⟩

theorem lookupInfo_map (g : String) (f : String → Nat) :
    ∀ names : List String,
      lookupInfo g (names.map (fun n => (n, f n))) =
        if g ∈ names then some (f g) else none := by
  intro names
  induction names with
  | nil => simp [lookupInfo]
  | cons n rest ih =>
    by_cases h : n = g
    · subst h
      simp [lookupInfo]
    · simp [lookupInfo, h, ih, Ne.symm h]

theorem mem_gateNames_iff (c : Circuit) (g : String) :
    g ∈ gateNames c ↔ 0 < gateCount c g := by
  unfold gateNames gateCount
  rw [List.mem_dedup, List.mem_map, List.length_pos]
  constructor
  · rintro ⟨gate, hmem, hname⟩ hnil
    have : gate ∈ c.gates.filter (fun gate => gate.name = g) := by
      rw [List.mem_filter]
      exact ⟨hmem, by simp [hname]⟩
    rw [hnil] at this
    exact absurd this (List.not_mem_nil gate)
  · intro hne
    obtain ⟨gate, hmem⟩ := List.exists_mem_of_ne_nil _ hne
    rw [List.mem_filter] at hmem
    exact ⟨gate, hmem.1, by simpa using hmem.2⟩

theorem lookupInfo_count_ops (c : Circuit) (g : String) :
    lookupInfo g (count_ops c) =
      if 0 < gateCount c g then some (gateCount c g) else none := by
  unfold count_ops
  rw [lookupInfo_map g (gateCount c) (gateNames c)]
  by_cases h : g ∈ gateNames c
  · rw [if_pos h, if_pos ((mem_gateNames_iff c g).mp h)]
  · rw [if_neg h, if_neg (fun hpos => h ((mem_gateNames_iff c g).mpr hpos))]

theorem qiskitGateCount2q_eq (c : Circuit) (g : String) :
    qiskitGateCount2q c g = gateCount c g := by
  unfold qiskitGateCount2q
  rw [lookupInfo_count_ops]
  by_cases h : 0 < gateCount c g
  · rw [if_pos h]
    rfl
  · rw [if_neg h, Option.getD_none]
    omega

theorem test_QFT_run (P : TestParams) (c : Circuit)
    (h : P.from_qasm_file (P.qasm_dir ++ "qft_N100.qasm") = .ok c) :
    test_QFT_100_transpile P =
      ⟨some c, some (P.compileFn qiskitOptimizationLevel P.backend c),
        [("depth_2q", depthFiltered (P.compileFn qiskitOptimizationLevel P.backend c)
            (fun g => g.name = P.backend.two_q_gate_type)),
         ("gate_count_2q", qiskitGateCount2q (P.compileFn qiskitOptimizationLevel P.backend c)
            P.backend.two_q_gate_type),
         ("qasm_load_time", P.elapsed)],
        if P.validator (P.compileFn qiskitOptimizationLevel P.backend c) P.backend
          then Status.passed else Status.assertionFailed⟩ := by
  unfold test_QFT_100_transpile runSteps qftTranspileSteps
  simp only [List.foldl]
  rw [show execStep P initialEnv (.loadCircuit (P.qasm_dir ++ "qft_N100.qasm")) =
      ⟨some c, none, [("qasm_load_time", P.elapsed)], .running⟩ from by
    simp [execStep, initialEnv, qiskit_qasm_loader, h]]
  rfl

theorem test_circSU2_run (P : TestParams) (circuit : Circuit) :
    test_circSU2_100_transpile P circuit =
      ⟨some circuit, some (P.compileFn qiskitOptimizationLevel P.backend circuit),
        [("depth_2q", depthFiltered (P.compileFn qiskitOptimizationLevel P.backend circuit)
            (fun g => g.name = P.backend.two_q_gate_type)),
         ("gate_count_2q",
            qiskitGateCount2q (P.compileFn qiskitOptimizationLevel P.backend circuit) "cz")],
        if P.validator (P.compileFn qiskitOptimizationLevel P.backend circuit) P.backend
          then Status.passed else Status.assertionFailed⟩ :=
  rfl

theorem runAbstractCase_ok (P : BqskitParams) (p : String × TopologySpec)
    (s : CompilerSession) (c : Circuit) (gc : Nat)
    (hp : P.from_qasm_file p.1 = .ok c)
    (hg : bqskitGateCount2q
        (P.compileBq c (BqskitFlexibleBackend c.num_qudits p.2) P.optimization_level
          s.nextHandle)
        (BqskitFlexibleBackend c.num_qudits p.2).two_q_gate_type = some gc) :
    (runAbstractCase P p s).1 =
      ⟨some c, some (BqskitFlexibleBackend c.num_qudits p.2), some s.nextHandle,
        [("depth_2q", multi_qudit_depth
            (P.compileBq c (BqskitFlexibleBackend c.num_qudits p.2) P.optimization_level
              s.nextHandle)),
         ("gate_count_2q", gc),
         ("qasm_load_time", P.elapsed)],
        if P.validator
            (P.compileBq c (BqskitFlexibleBackend c.num_qudits p.2) P.optimization_level
              s.nextHandle)
            (BqskitFlexibleBackend c.num_qudits p.2)
          then Status.passed else Status.assertionFailed⟩ := by
  simp only [runAbstractCase, qiskit_qasm_loader, hp, Compiler, hg]

theorem runAbstractCase_spec (P : BqskitParams) (p : String × TopologySpec)
    (s : CompilerSession) :
    ((runAbstractCase P p s).1.loaded = none
      ∧ (runAbstractCase P p s).1.backendUsed = none
      ∧ (runAbstractCase P p s).1.handle = none
      ∧ (runAbstractCase P p s).2 = s
      ∧ expectedFlexible P p = none)
    ∨ (∃ c, P.from_qasm_file p.1 = Except.ok c
        ∧ (runAbstractCase P p s).1.loaded = some c
        ∧ (runAbstractCase P p s).1.backendUsed =
            some (BqskitFlexibleBackend c.num_qudits p.2)
        ∧ (runAbstractCase P p s).1.handle = some s.nextHandle
        ∧ (runAbstractCase P p s).2.nextHandle = s.nextHandle + 1
        ∧ expectedFlexible P p = some (BqskitFlexibleBackend c.num_qudits p.2)) := by
  cases hp : P.from_qasm_file p.1 with
  | error e =>
    left
    simp [runAbstractCase, qiskit_qasm_loader, expectedFlexible, hp]
  | ok c =>
    right
    refine ⟨c, rfl, ?_⟩
    simp only [runAbstractCase, qiskit_qasm_loader, expectedFlexible, hp]
    split <;> simp [Compiler]

theorem runAbstractCase_session_le (P : BqskitParams) (p : String × TopologySpec)
    (s : CompilerSession) :
    s.nextHandle ≤ (runAbstractCase P p s).2.nextHandle := by
  rcases runAbstractCase_spec P p s with ⟨_, _, _, h4, _⟩ | ⟨c, _, _, _, _, h6, _⟩
  · rw [h4]
  · omega

theorem runSmallGroup_session_le (P : BqskitParams) :
    ∀ (pairs : List (String × TopologySpec)) (s : CompilerSession),
      s.nextHandle ≤ (runSmallGroup P pairs s).2.nextHandle := by
  intro pairs
  induction pairs with
  | nil => intro s; exact Nat.le_refl _
  | cons p rest ih =>
    intro s
    have h1 := runAbstractCase_session_le P p s
    have h2 := ih (runAbstractCase P p s).2
    simp only [runSmallGroup, test_QASMBench_small]
    omega

theorem runSmallGroup_handle_lb (P : BqskitParams) :
    ∀ (pairs : List (String × TopologySpec)) (s : CompilerSession),
      ∀ r ∈ (runSmallGroup P pairs s).1, ∀ h, r.handle = some h → s.nextHandle ≤ h := by
  intro pairs
  induction pairs with
  | nil =>
    intro s r hr
    simp [runSmallGroup] at hr
  | cons p rest ih =>
    intro s r hr h hh
    simp only [runSmallGroup, test_QASMBench_small, List.mem_cons] at hr
    rcases hr with hr | hr
    · subst hr
      rcases runAbstractCase_spec P p s with ⟨_, _, h3, _, _⟩ | ⟨c, _, _, _, h5, _, _⟩
      · rw [h3] at hh; exact absurd hh (by simp)
      · rw [h5] at hh
        injection hh with hh2
        omega
    · have := ih (runAbstractCase P p s).2 r hr h hh
      have hle := runAbstractCase_session_le P p s
      omega

theorem runSmallGroup_handles_pairwise (P : BqskitParams) :
    ∀ (pairs : List (String × TopologySpec)) (s : CompilerSession),
      List.Pairwise
        (fun r1 r2 => ∀ h1 h2, r1.handle = some h1 → r2.handle = some h2 → h1 ≠ h2)
        (runSmallGroup P pairs s).1 := by
  intro pairs
  induction pairs with
  | nil => intro s; simp [runSmallGroup]
  | cons p rest ih =>
    intro s
    simp only [runSmallGroup, test_QASMBench_small]
    refine List.Pairwise.cons ?_ (ih _)
    intro r2 hr2 h1 h2 hh1 hh2
    rcases runAbstractCase_spec P p s with ⟨_, _, h3, _, _⟩ | ⟨c, _, _, _, h5, h6, _⟩
    · rw [h3] at hh1; exact absurd hh1 (by simp)
    · rw [h5] at hh1
      injection hh1 with hh1e
      have hlb := runSmallGroup_handle_lb P rest (runAbstractCase P p s).2 r2 hr2 h2 hh2
      omega

theorem runSmallGroup_independent (P : BqskitParams) :
    ∀ (pairs : List (String × TopologySpec)) (s : CompilerSession),
      List.Forall₂ (fun p r => ∃ s0, r = (test_QASMBench_small P p s0).1)
        pairs (runSmallGroup P pairs s).1 := by
  intro pairs
  induction pairs with
  | nil => intro s; exact List.Forall₂.nil
  | cons p rest ih =>
    intro s
    simp only [runSmallGroup, test_QASMBench_small]
    exact List.Forall₂.cons ⟨s, rfl⟩ (ih _)

theorem runAbstractCase_backendUsed (P : BqskitParams) (p : String × TopologySpec)
    (s : CompilerSession) :
    (runAbstractCase P p s).1.backendUsed = expectedFlexible P p := by
  rcases runAbstractCase_spec P p s with ⟨_, h2, _, _, h5⟩ | ⟨c, _, _, h4, _, _, h7⟩
  · rw [h2, h5]
  · rw [h4, h7]

theorem runSmallGroup_backendUsed (P : BqskitParams) :
    ∀ (pairs : List (String × TopologySpec)) (s : CompilerSession),
      List.Forall₂ (fun p r => r.backendUsed = expectedFlexible P p)
        pairs (runSmallGroup P pairs s).1 := by
  intro pairs
  induction pairs with
  | nil => intro s; exact List.Forall₂.nil
  | cons p rest ih =>
    intro s
    simp only [runSmallGroup, test_QASMBench_small]
    exact List.Forall₂.cons (runAbstractCase_backendUsed P p s) (ih _)

theorem runAbstractCase_loaded_backendUsed (P : BqskitParams)
    (p : String × TopologySpec) (s : CompilerSession) (c : Circuit) (b : Backend)
    (hc : (runAbstractCase P p s).1.loaded = some c)
    (hb : (runAbstractCase P p s).1.backendUsed = some b) :
    b.num_qubits = c.num_qudits := by
  rcases runAbstractCase_spec P p s with ⟨h1, _, _, _, _⟩ | ⟨c2, _, h3, h4, _, _, _⟩
  · rw [h1] at hc; exact absurd hc (by simp)
  · rw [h3] at hc
    injection hc with hce
    rw [h4] at hb
    injection hb with hbe
    subst hce
    rw [← hbe]
    rfl

/-- C1: evaluation at the failing input.  Against a backend whose canonical
two-qubit gate type is ecr and a compiled circuit holding seven ecr gates
and no cz gate, test_circSU2_100_transpile records gate_count_2q as 0: the
count of the hardcoded dict key cz of test_summit.py line 73, not the
count 7 of the backend canonical two-qubit gate type that the claim (and
every sibling test, and the depth_2q line of the same test) uses.  The
test nonetheless passes, with the wrong metric recorded. -/
theorem C1_circSU2_gate_count_hardcoded_cz :
    lookupInfo "gate_count_2q"
        (test_circSU2_100_transpile circSU2Params su2Input).extra_info = some 0
    ∧ gateCount ecrResult circSU2Params.backend.two_q_gate_type = 7
    ∧ (test_circSU2_100_transpile circSU2Params su2Input).status = Status.passed := by
  decide

/-- C2 counterexample: running the small abstract-transpile group on two
(circuit, topology) pairs constructs two distinct compiler handles, one
inside each test invocation, so no single compiler handle is shared across
the pairs of the group as the claim states. -/
theorem C2_counterexample_no_shared_handle :
    ((runSmallGroup bqParams twoPairs ⟨0⟩).1.map CaseRecord.handle) = [some 0, some 1]
    ∧ (some 0 : Option Nat) ≠ some 1 := by
  decide

/-- C2 (amended): within one parametrized group, no state carries between
(circuit, topology) pairs: the only threaded state is the handle-allocation
counter, each pair constructs and uses its own fresh compiler handle inside
its test body, no handle is used by two pairs, and each case record is a
function of its own pair alone (plus the allocation counter). -/
theorem C2_no_shared_compiler_handle (P : BqskitParams)
    (pairs : List (String × TopologySpec)) (s : CompilerSession) :
    List.Pairwise
        (fun r1 r2 => ∀ h1 h2, r1.handle = some h1 → r2.handle = some h2 → h1 ≠ h2)
        (runSmallGroup P pairs s).1
    ∧ List.Forall₂ (fun p r => ∃ s0, r = (test_QASMBench_small P p s0).1)
        pairs (runSmallGroup P pairs s).1 :=
  ⟨runSmallGroup_handles_pairwise P pairs s, runSmallGroup_independent P pairs s⟩

/-- C3 counterexample: a run of test_QFT_100_transpile in which the
compiled circuit contains zero two-qubit gates and the validator accepts:
the test passes with gate_count_2q recorded as 0, strictly below the
theoretical minimum for the 100-qubit QFT family, so the test performs no
assertion that the recorded two-qubit gate count reaches that minimum. -/
theorem C3_counterexample_no_gate_count_assertion :
    (test_QFT_100_transpile qftParams).status = Status.passed
    ∧ lookupInfo "gate_count_2q" (test_QFT_100_transpile qftParams).extra_info = some 0
    ∧ ¬ qftTwoQGateTheoreticalMin ≤ 0 := by
  decide

/-- C3 (amended): the QFT scenario loads the QFT circuit description,
compiles it at the configured optimization level against the fixed
production backend, records gate_count_2q (the two-qubit gate count of the
compiled circuit) and depth_2q and the load time, and asserts only the
validator verdict; it makes no assertion about the recorded gate count. -/
theorem C3_qft_scenario (P : TestParams) (c : Circuit)
    (h : P.from_qasm_file (P.qasm_dir ++ "qft_N100.qasm") = .ok c) :
    (test_QFT_100_transpile P).status =
      (if P.validator (P.compileFn qiskitOptimizationLevel P.backend c) P.backend
        then Status.passed else Status.assertionFailed)
    ∧ lookupInfo "gate_count_2q" (test_QFT_100_transpile P).extra_info =
        some (gateCount (P.compileFn qiskitOptimizationLevel P.backend c)
          P.backend.two_q_gate_type)
    ∧ lookupInfo "depth_2q" (test_QFT_100_transpile P).extra_info =
        some (depthFiltered (P.compileFn qiskitOptimizationLevel P.backend c)
          (fun g => g.name = P.backend.two_q_gate_type))
    ∧ lookupInfo "qasm_load_time" (test_QFT_100_transpile P).extra_info =
        some P.elapsed := by
  rw [test_QFT_run P c h]
  refine ⟨rfl, ?_, rfl, rfl⟩
  rw [← qiskitGateCount2q_eq]
  rfl

/-- C3 witness: the amended scenario theorem applied at a concrete run. -/
theorem C3_qft_scenario_witness :
    qftParams.from_qasm_file (qftParams.qasm_dir ++ "qft_N100.qasm") = Except.ok hCircuit
    ∧ lookupInfo "gate_count_2q" (test_QFT_100_transpile qftParams).extra_info =
        some (gateCount (qftParams.compileFn qiskitOptimizationLevel qftParams.backend hCircuit)
          qftParams.backend.two_q_gate_type)
    ∧ lookupInfo "qasm_load_time" (test_QFT_100_transpile qftParams).extra_info =
        some qftParams.elapsed :=
  ⟨rfl, (C3_qft_scenario qftParams hCircuit rfl).2.1,
    (C3_qft_scenario qftParams hCircuit rfl).2.2.2⟩

/-- C4: in every embedded test body the validator assertion is the final
statement of the pipeline, it runs after both quality metrics are recorded,
and a false validator verdict surfaces as a failed assertion (status
assertionFailed, not an errored exception status) with the metrics already
recorded.  Covers the QFT and circSU2 device-transpile pipelines and the
body shared by the three abstract-transpile suites (where the metrics are
written at lines 60 and 61 of test_qasmbench.py and the assert at 62). -/
theorem C4_validator_assert_last :
    (∀ P : TestParams, (qftTranspileSteps P).getLast? = some TestStep.assertValidator)
    ∧ circSU2TranspileSteps.getLast? = some TestStep.assertValidator
    ∧ (∀ (P : TestParams) (c : Circuit),
        P.from_qasm_file (P.qasm_dir ++ "qft_N100.qasm") = .ok c →
        P.validator (P.compileFn qiskitOptimizationLevel P.backend c) P.backend = false →
        (test_QFT_100_transpile P).status = Status.assertionFailed
        ∧ (lookupInfo "gate_count_2q" (test_QFT_100_transpile P).extra_info).isSome = true
        ∧ (lookupInfo "depth_2q" (test_QFT_100_transpile P).extra_info).isSome = true)
    ∧ (∀ (P : TestParams) (circuit : Circuit),
        P.validator (P.compileFn qiskitOptimizationLevel P.backend circuit) P.backend
            = false →
        (test_circSU2_100_transpile P circuit).status = Status.assertionFailed
        ∧ (lookupInfo "gate_count_2q"
            (test_circSU2_100_transpile P circuit).extra_info).isSome = true
        ∧ (lookupInfo "depth_2q"
            (test_circSU2_100_transpile P circuit).extra_info).isSome = true)
    ∧ ∀ (Q : BqskitParams) (p : String × TopologySpec) (s : CompilerSession)
        (c : Circuit) (gc : Nat),
        Q.from_qasm_file p.1 = .ok c →
        bqskitGateCount2q
            (Q.compileBq c (BqskitFlexibleBackend c.num_qudits p.2) Q.optimization_level
              s.nextHandle)
            (BqskitFlexibleBackend c.num_qudits p.2).two_q_gate_type = some gc →
        Q.validator
            (Q.compileBq c (BqskitFlexibleBackend c.num_qudits p.2) Q.optimization_level
              s.nextHandle)
            (BqskitFlexibleBackend c.num_qudits p.2) = false →
        (test_QASMBench_small Q p s).1.status = Status.assertionFailed
        ∧ (lookupInfo "gate_count_2q"
            (test_QASMBench_small Q p s).1.extra_info).isSome = true
        ∧ (lookupInfo "depth_2q"
            (test_QASMBench_small Q p s).1.extra_info).isSome = true := by
  refine ⟨fun P => rfl, rfl, ?_, ?_, ?_⟩
  · intro P c h hv
    rw [test_QFT_run P c h]
    refine ⟨?_, rfl, rfl⟩
    simp [hv]
  · intro P circuit hv
    rw [test_circSU2_run P circuit]
    refine ⟨?_, rfl, rfl⟩
    simp [hv]
  · intro Q p s c gc hp hg hv
    have hok := runAbstractCase_ok Q p s c gc hp hg
    simp only [test_QASMBench_small]
    rw [hok]
    refine ⟨?_, rfl, rfl⟩
    simp [hv]

/-- C4 witness: concrete runs of the QFT pipeline, the circSU2 pipeline and
the abstract-transpile body, each with a rejecting validator, fail by
assertion, not by exception. -/
theorem C4_validator_assert_last_witness :
    qftParamsFail.from_qasm_file (qftParamsFail.qasm_dir ++ "qft_N100.qasm") =
        Except.ok hCircuit
    ∧ qftParamsFail.validator
        (qftParamsFail.compileFn qiskitOptimizationLevel qftParamsFail.backend hCircuit)
        qftParamsFail.backend = false
    ∧ (test_QFT_100_transpile qftParamsFail).status = Status.assertionFailed
    ∧ (test_circSU2_100_transpile qftParamsFail su2Input).status = Status.assertionFailed
    ∧ bqParamsFail.from_qasm_file "a.qasm" = Except.ok cxCircuit
    ∧ bqskitGateCount2q
        (bqParamsFail.compileBq cxCircuit
          (BqskitFlexibleBackend cxCircuit.num_qudits ringTopo)
          bqParamsFail.optimization_level (0 : Nat))
        (BqskitFlexibleBackend cxCircuit.num_qudits ringTopo).two_q_gate_type = some 1
    ∧ (test_QASMBench_small bqParamsFail ("a.qasm", ringTopo) ⟨0⟩).1.status =
        Status.assertionFailed :=
  ⟨rfl, rfl,
    (C4_validator_assert_last.2.2.1 qftParamsFail hCircuit rfl rfl).1,
    (C4_validator_assert_last.2.2.2.1 qftParamsFail su2Input rfl).1,
    rfl, by decide,
    (C4_validator_assert_last.2.2.2.2 bqParamsFail ("a.qasm", ringTopo) ⟨0⟩ cxCircuit 1
      rfl (by decide) rfl).1⟩

/-- C5: when the parse of the file fails, the loader propagates exactly
that parse error, returns no circuit value, and leaves the extra_info
mapping untouched: the qasm_load_time metric of io.py line 20 is never
written, and no retry or recovery can turn the outcome into a success. -/
theorem C5_loader_error_propagates
    (from_qasm_file : String → Except ParseError Circuit) (qasm_file : String)
    (elapsed : Nat) (extra_info : ExtraInfo) (e : ParseError)
    (h : from_qasm_file qasm_file = .error e) :
    qiskit_qasm_loader from_qasm_file qasm_file elapsed extra_info =
      (.error e, extra_info) := by
  unfold qiskit_qasm_loader
  rw [h]

/-- C5 witness: the loader on an always-missing file. -/
theorem C5_loader_error_propagates_witness :
    failingLoader "missing.qasm" = Except.error ParseError.missingFile
    ∧ qiskit_qasm_loader failingLoader "missing.qasm" 0 [] =
        (Except.error ParseError.missingFile, []) :=
  ⟨rfl, C5_loader_error_propagates failingLoader "missing.qasm" 0 []
    ParseError.missingFile rfl⟩

/-- C6: the benchmarked compile step does not mutate the input circuit: no
statement of the test body after the load writes the circuit binding (each
non-load step leaves the circuit component of the environment unchanged),
and after the full QFT pipeline the input circuit is still exactly the
loaded one (same qubit count, same gate sequence) while the compiled
circuit is held as a separate value produced by the compiler. -/
theorem C6_no_input_mutation :
    (∀ (P : TestParams) (env : TestEnv) (k : String),
        (execStep P env TestStep.compileStep).circuit = env.circuit
        ∧ (execStep P env (TestStep.recordGateCount k)).circuit = env.circuit
        ∧ (execStep P env TestStep.recordDepth).circuit = env.circuit
        ∧ (execStep P env TestStep.assertValidator).circuit = env.circuit)
    ∧ ∀ (P : TestParams) (c : Circuit),
        P.from_qasm_file (P.qasm_dir ++ "qft_N100.qasm") = .ok c →
        (test_QFT_100_transpile P).circuit = some c
        ∧ (test_QFT_100_transpile P).result =
            some (P.compileFn qiskitOptimizationLevel P.backend c) := by
  constructor
  · intro P env k
    obtain ⟨ec, er, ei, es⟩ := env
    cases es <;> cases ec <;> cases er <;> simp [execStep]
  · intro P c h
    rw [test_QFT_run P c h]
    exact ⟨rfl, rfl⟩

/-- C6 witness: a concrete run preserves the loaded circuit. -/
theorem C6_no_input_mutation_witness :
    qftParams.from_qasm_file (qftParams.qasm_dir ++ "qft_N100.qasm") = Except.ok hCircuit
    ∧ (test_QFT_100_transpile qftParams).circuit = some hCircuit
    ∧ (test_QFT_100_transpile qftParams).result =
        some (qftParams.compileFn qiskitOptimizationLevel qftParams.backend hCircuit) :=
  ⟨rfl, (C6_no_input_mutation.2 qftParams hCircuit rfl).1,
    (C6_no_input_mutation.2 qftParams hCircuit rfl).2⟩

/-- C7: loading is idempotent: two loader calls on the same file path (with
any latencies and any prior extra_info states) that both succeed yield the
same circuit, hence structurally equal circuits with the same gate sequence
and the same qubit count. -/
theorem C7_loader_idempotent
    (from_qasm_file : String → Except ParseError Circuit) (qasm_file : String)
    (e1 e2 : Nat) (i1 i2 : ExtraInfo) (c1 c2 : Circuit)
    (h1 : (qiskit_qasm_loader from_qasm_file qasm_file e1 i1).1 = .ok c1)
    (h2 : (qiskit_qasm_loader from_qasm_file qasm_file e2 i2).1 = .ok c2) :
    c1 = c2 ∧ c1.gates = c2.gates ∧ c1.num_qubits = c2.num_qubits := by
  unfold qiskit_qasm_loader at h1 h2
  cases hp : from_qasm_file qasm_file with
  | error e =>
    rw [hp] at h1
    exact absurd h1 (by simp)
  | ok c =>
    rw [hp] at h1 h2
    simp only [Except.ok.injEq] at h1 h2
    subst h1
    subst h2
    exact ⟨rfl, rfl, rfl⟩

/-- C7 witness: two concrete loads of the same path. -/
theorem C7_loader_idempotent_witness :
    (qiskit_qasm_loader (fun _ => Except.ok cxCircuit) "f.qasm" 0 []).1 =
        Except.ok cxCircuit
    ∧ (cxCircuit = cxCircuit ∧ cxCircuit.gates = cxCircuit.gates
        ∧ cxCircuit.num_qubits = cxCircuit.num_qubits) :=
  ⟨rfl, C7_loader_idempotent (fun _ => Except.ok cxCircuit) "f.qasm" 0 1 [] []
    cxCircuit cxCircuit rfl rfl⟩

/-- C8: the fixed production backend is resolved from the global
configuration exactly once per run of the device-transpile suite (at module
import) and that same resolved backend value is handed to every test case,
while every abstract-transpile case uses a flexible backend constructed
anew from its own pair: the loaded circuit qudit count paired with the
topology specification of that case. -/
theorem C8_backend_resolution :
    (∀ (cfg : Configuration) (tests : List (Backend → TestEnv)) (log : ResolutionLog),
        (runDeviceSuite cfg tests log).2.backendResolutions = log.backendResolutions + 1
        ∧ (runDeviceSuite cfg tests log).1 = tests.map (fun t => t cfg.backend))
    ∧ ∀ (P : BqskitParams) (pairs : List (String × TopologySpec)) (s : CompilerSession),
        List.Forall₂ (fun p r => r.backendUsed = expectedFlexible P p)
          pairs (runSmallGroup P pairs s).1 := by
  constructor
  · intro cfg tests log
    exact ⟨rfl, rfl⟩
  · intro P pairs s
    exact runSmallGroup_backendUsed P pairs s

/-- C9: every abstract-transpile test case constructs its flexible backend
with a qubit count equal to the loaded circuit qudit count, so the backend
descriptor qubit count equals (hence is at least) the circuit qubit count
by construction, in all three suites. -/
theorem C9_flexible_backend_qubits (P : BqskitParams)
    (pair : String × TopologySpec) (s : CompilerSession) (c : Circuit) (b : Backend) :
    ((test_QASMBench_small P pair s).1.loaded = some c →
      (test_QASMBench_small P pair s).1.backendUsed = some b →
      b.num_qubits = c.num_qudits ∧ c.num_qudits ≤ b.num_qubits)
    ∧ ((test_QASMBench_medium P pair s).1.loaded = some c →
      (test_QASMBench_medium P pair s).1.backendUsed = some b →
      b.num_qubits = c.num_qudits ∧ c.num_qudits ≤ b.num_qubits)
    ∧ ((test_QASMBench_large P pair s).1.loaded = some c →
      (test_QASMBench_large P pair s).1.backendUsed = some b →
      b.num_qubits = c.num_qudits ∧ c.num_qudits ≤ b.num_qubits) := by
  refine ⟨?_, ?_, ?_⟩ <;>
    · intro hc hb
      have he := runAbstractCase_loaded_backendUsed P pair s c b hc hb
      exact ⟨he, Nat.le_of_eq he.symm⟩

/-- C9 witness: a concrete small-suite case. -/
theorem C9_flexible_backend_qubits_witness :
    (test_QASMBench_small bqParams ("a.qasm", ringTopo) ⟨0⟩).1.loaded = some cxCircuit
    ∧ (test_QASMBench_small bqParams ("a.qasm", ringTopo) ⟨0⟩).1.backendUsed =
        some (BqskitFlexibleBackend cxCircuit.num_qudits ringTopo)
    ∧ ((BqskitFlexibleBackend cxCircuit.num_qudits ringTopo).num_qubits =
          cxCircuit.num_qudits
        ∧ cxCircuit.num_qudits ≤
            (BqskitFlexibleBackend cxCircuit.num_qudits ringTopo).num_qubits) :=
  ⟨by decide, by decide,
    (C9_flexible_backend_qubits bqParams ("a.qasm", ringTopo) ⟨0⟩ cxCircuit
      (BqskitFlexibleBackend cxCircuit.num_qudits ringTopo)).1 (by decide) (by decide)⟩

/-- C10: when the compiled circuit contains no occurrence of the canonical
two-qubit gate type, the qiskit device-transpile recording expression (a
dict get with default 0) yields 0, while the bqskit abstract-transpile
recording expression (plain dict indexing into gate_counts, which holds
only the gate types present in the circuit) finds no entry: the lookup
yields none, modelling the KeyError, instead of recording 0. -/
theorem C10_gate_count_default_vs_indexing (r : Circuit) (g : String)
    (h : gateCount r g = 0) :
    qiskitGateCount2q r g = 0 ∧ bqskitGateCount2q r g = none := by
  have hl : lookupInfo g (count_ops r) = none := by
    rw [lookupInfo_count_ops, if_neg]
    omega
  exact ⟨by rw [qiskitGateCount2q_eq, h], hl⟩

/-- C10 witness: a circuit with a single one-qubit h gate holds no cx
entry: the defaulted get records 0, the plain indexing has no key. -/
theorem C10_gate_count_default_vs_indexing_witness :
    gateCount hCircuit "cx" = 0
    ∧ qiskitGateCount2q hCircuit "cx" = 0
    ∧ bqskitGateCount2q hCircuit "cx" = none :=
  ⟨by decide, (C10_gate_count_default_vs_indexing hCircuit "cx" (by decide)).1,
    (C10_gate_count_default_vs_indexing hCircuit "cx" (by decide)).2⟩

end Benchpress
